import Mathlib

/-!
Verification of the PWLoGiCon query layer (src/app.js) against its
natural-language specification.

The three endpoints are thin SQLite queries invoked from Express handlers:

* `GET /api/gps/trucks`        (spec: `listRecentVehiclePositions`)
* `GET /api/opportunities`     (spec: `findOpportunities`)
* `GET /api/analytics/revenue` (spec: `revenueByPeriod`)

The embedding models the SQLite value and expression semantics these
queries rely on: the three storage classes that occur here (NULL, numeric,
TEXT), NULL propagation through math functions and arithmetic, the
text-to-number coercions, the cross-storage-class ordering used by `<`
(numeric values order before TEXT), `acos` returning NULL outside
`[-1, 1]`, date modifiers of `datetime('now', m)`, and the
filter / order / limit pipeline of each query.  Express delivers every
query-string parameter as a string; `req.query.lat` is `undefined` when
absent, which the sqlite3 driver binds as NULL.  Real numbers stand in
for SQLite's 8-byte IEEE floats; the one floating-point-only divergence
(the unclamped `acos` argument drifting out of domain) is discussed at its
claim.
-/

namespace PWL

/-- SQLite storage values reachable in these queries.  `real` covers both
the INTEGER and REAL storage classes (they form one numeric class for
comparison and are coerced to doubles by the math functions used here). -/
inductive SVal where
| null : SVal
| real : ℝ → SVal
| text : String → SVal

/-- Whitespace accepted by SQLite's text-to-number conversion. -/
def isWs (c : Char) : Bool :=
c = ' ' || c = '\t' || c = '\n' || c = '\r' || c = '\x0b' || c = '\x0c'

/-- Leading sign of a numeric literal: returns (negative?, rest). -/
def signSplit : List Char → Bool × List Char
| '-' :: cs => (true, cs)
| '+' :: cs => (false, cs)
| cs => (false, cs)

/-- Decimal digit run as a natural number. -/
def digitsToNat (cs : List Char) : ℕ :=
cs.foldl (fun a c => a * 10 + (c.toNat - 48)) 0

/-- Exponent scanner: consumes `e`/`E`, optional sign and at least one
digit; on anything else consumes nothing. -/
def expScan : List Char → ℤ × List Char
| [] => (0, [])
| c :: rest =>
  if c = 'e' || c = 'E' then
    let (eneg, r1) := signSplit rest
    let ds := r1.takeWhile Char.isDigit
    if ds.isEmpty then (0, c :: rest)
    else ((if eneg then -(digitsToNat ds : ℤ) else (digitsToNat ds : ℤ)),
          r1.dropWhile Char.isDigit)
  else (0, c :: rest)

/-- Scanner for the numeric-literal grammar of `sqlite3AtoF`: optional
sign, digits, optional fraction, optional exponent.  Returns the value,
the unconsumed input and whether any mantissa digit was seen. -/
def numScan (cs : List Char) : ℚ × List Char × Bool :=
let (neg, cs1) := signSplit cs
let ip := cs1.takeWhile Char.isDigit
let cs2 := cs1.dropWhile Char.isDigit
let (fp, cs3) :=
  match cs2 with
  | '.' :: r => (r.takeWhile Char.isDigit, r.dropWhile Char.isDigit)
  | _ => ([], cs2)
let sawDigit := !(ip.isEmpty && fp.isEmpty)
let mant : ℚ := (digitsToNat (ip ++ fp) : ℚ) / (10 : ℚ) ^ fp.length
let (e, cs4) := if sawDigit then expScan cs3 else ((0 : ℤ), cs3)
((if neg then -mant else mant) * (10 : ℚ) ^ e, cs4, sawDigit)

/-- SQLite's whole-string numeric test (`sqlite3_value_numeric_type` on
TEXT): surrounding whitespace allowed, otherwise the entire string must be
one numeric literal.  `none` means the text does not look numeric. -/
def parseNum (s : String) : Option ℚ :=
let (v, rest, saw) := numScan (s.toList.dropWhile isWs)
if saw && (rest.dropWhile isWs).isEmpty then some v else none

/-- Argument coercion of the SQLite math functions: NULL stays NULL,
numeric values pass through, TEXT converts only when the whole string is
numeric (otherwise the function returns NULL). -/
noncomputable def svalToNum : SVal → Option ℝ
| .null => none
| .real x => some x
| .text s => (parseNum s).map fun q => (q : ℝ)

/-- Operand coercion of SQLite arithmetic operators: NULL stays NULL and a
TEXT operand contributes its numeric value, taking the longest numeric
prefix and `0` when there is none. -/
noncomputable def svalArithNum : SVal → Option ℝ
| .null => none
| .real x => some x
| .text s => some (((numScan (s.toList.dropWhile isWs)).1 : ℚ) : ℝ)

/-- SQLite `radians(X)`: degrees to radians, NULL on non-numeric input. -/
noncomputable def svalRadians (v : SVal) : SVal :=
match svalToNum v with
| none => .null
| some x => .real (x * Real.pi / 180)

/-- SQLite `cos(X)`. -/
noncomputable def svalCos (v : SVal) : SVal :=
match svalToNum v with
| none => .null
| some x => .real (Real.cos x)

/-- SQLite `sin(X)`. -/
noncomputable def svalSin (v : SVal) : SVal :=
match svalToNum v with
| none => .null
| some x => .real (Real.sin x)

/-- SQLite `acos(X)`: NULL outside `[-1, 1]` (the C `acos` yields NaN
there and SQLite turns a NaN result into NULL).  There is no clamping. -/
noncomputable def svalAcos (v : SVal) : SVal :=
match svalToNum v with
| none => .null
| some x => if -1 ≤ x ∧ x ≤ 1 then .real (Real.arccos x) else .null

/-- SQLite binary `*`. -/
noncomputable def svalMul (a b : SVal) : SVal :=
match svalArithNum a, svalArithNum b with
| some x, some y => .real (x * y)
| _, _ => .null

/-- SQLite binary `+`. -/
noncomputable def svalAdd (a b : SVal) : SVal :=
match svalArithNum a, svalArithNum b with
| some x, some y => .real (x + y)
| _, _ => .null

/-- SQLite binary `-`. -/
noncomputable def svalSub (a b : SVal) : SVal :=
match svalArithNum a, svalArithNum b with
| some x, some y => .real (x - y)
| _, _ => .null

/-- SQLite `<` between operands without column affinity (the operands in
these queries are expression results and bound parameters): NULL yields
NULL, numeric values order before TEXT, TEXT compares bytewise. -/
noncomputable def svalLt : SVal → SVal → Option Bool
| .null, _ => none
| _, .null => none
| .real a, .real b => some (decide (a < b))
| .real _, .text _ => some true
| .text _, .real _ => some false
| .text a, .text b => some (decide (a < b))

/-- Outcome of an Express handler: `res.json(rows)` on success, or
`res.status(500).json(err.message)` when the `db.all` callback reports an
error. -/
inductive Response (α : Type) where
| json : α → Response α
| error : String → Response α

/-- Row of the `opportunities` table.  The bootstrap `CREATE TABLE IF NOT
EXISTS` in src/app.js omits `origin_lat` / `origin_lng`, but the query
reads them and the spec data model (§3) lists the pickup coordinate, so
the deployed table carries them.  `expiry` is an ISO-8601 TIMESTAMP text;
stored rows are listed in rowid order (the scan order of the table, which
for this INTEGER PRIMARY KEY schema is ascending `id`). -/
structure Opportunity where
id : ℤ
origin : String
destination : String
payload : String
revenue : ℝ
expiry : String
origin_lat : ℝ
origin_lng : ℝ

/-- Query-string parameters of `GET /api/opportunities` as Express hands
them to the handler: each present parameter is a string, an absent one is
`undefined` (here `none`). -/
structure OppQuery where
lat : Option String
lng : Option String
max_distance : Option String

/-- Row shape produced by the SELECT of `GET /api/opportunities`. -/
structure OppResult where
id : ℤ
origin : String
destination : String
payload : String
revenue : ℝ
distance : SVal

/-- The bound value of the `?` holes fed from `req.query.lat` (used twice)
and `req.query.lng`: a string binds as TEXT, `undefined` binds as NULL. -/
def bindParam : Option String → SVal
| none => .null
| some s => .text s

/-- The bound value of the fourth `?`: `const { max_distance = 100 } =
req.query` yields the JS number `100` (bound as a numeric value) when the
parameter is absent and the query-string text otherwise. -/
def bindMax : Option String → SVal
| none => .real 100
| some s => .text s

/-- The SELECT's distance expression, hole for hole:
`6371 * acos(cos(radians(?1)) * cos(radians(origin_lat)) *
cos(radians(origin_lng) - radians(?2)) + sin(radians(?3)) *
sin(radians(origin_lat)))` with `?1 = ?3 = lat` and `?2 = lng`. -/
noncomputable def distExpr (lat lng : SVal) (olat olng : ℝ) : SVal :=
svalMul (.real 6371) (svalAcos
  (svalAdd
    (svalMul
      (svalMul (svalCos (svalRadians lat)) (svalCos (svalRadians (.real olat))))
      (svalCos (svalSub (svalRadians (.real olng)) (svalRadians lng))))
    (svalMul (svalSin (svalRadians lat)) (svalSin (svalRadians (.real olat))))))

/-- Distance of one stored row for one request. -/
noncomputable def distSV (q : OppQuery) (o : Opportunity) : SVal :=
distExpr (bindParam q.lat) (bindParam q.lng) o.origin_lat o.origin_lng

/-- WHERE clause: `distance < ? AND expiry > datetime('now')`.  SQLite
keeps a row only when the conjunction evaluates to true (a NULL conjunct
never passes).  `distance` resolves to the SELECT alias, which SQLite
permits in WHERE.  Both sides of the expiry test are TEXT, so it is a
bytewise comparison of ISO-8601 timestamps. -/
noncomputable def wherePass (q : OppQuery) (now : String) (o : Opportunity) : Bool :=
(svalLt (distSV q o) (bindMax q.max_distance)).getD false &&
  (svalLt (.text now) (.text o.expiry)).getD false

/-- Rows surviving the WHERE clause, in scan order. -/
noncomputable def eligible (q : OppQuery) (now : String) (store : List Opportunity) :
    List Opportunity :=
store.filter fun o => wherePass q now o

/-- Comparison of `ORDER BY revenue DESC`. -/
def revDesc (a b : Opportunity) : Prop := b.revenue ≤ a.revenue

noncomputable instance : DecidableRel revDesc :=
fun a b => inferInstanceAs (Decidable (b.revenue ≤ a.revenue))

/-- ORDER BY revenue DESC, as observed from SQLite's sorter: rows with
equal revenue come out in scan order (a stable sort over the table scan). -/
noncomputable def ranked (l : List Opportunity) : List Opportunity :=
l.insertionSort revDesc

/-- One output row of the SELECT. -/
noncomputable def toResult (q : OppQuery) (o : Opportunity) : OppResult :=
⟨o.id, o.origin, o.destination, o.payload, o.revenue, distSV q o⟩

/-- Result rows of `GET /api/opportunities`: WHERE filter, ORDER BY
revenue DESC, LIMIT 50, projected through the SELECT list. -/
noncomputable def oppRows (q : OppQuery) (now : String) (store : List Opportunity) :
    List OppResult :=
((ranked (eligible q now store)).take 50).map fun o => toResult q o

/-- The handler of `GET /api/opportunities` (spec: `findOpportunities`):
a failing `db.all` becomes a 500 error response, otherwise the rows are
returned as JSON.  There is no parameter validation of any kind. -/
noncomputable def findOpportunities (q : OppQuery) (now : String)
    (db : Except String (List Opportunity)) : Response (List OppResult) :=
match db with
| .error e => .error e
| .ok store => .json (oppRows q now store)

/-- Row of the `trucks` table.  Timestamps are abstracted to seconds since
the epoch: the stored `last_updated` text and the text produced by
`datetime('now', '-5 minutes')` are both ISO-8601, whose bytewise order
agrees with chronological order, and `strftime('%s', ...)` projects the
same instant to its epoch seconds. -/
structure Truck where
id : ℤ
license_plate : String
current_lat : ℝ
current_lng : ℝ
last_updated : ℤ

/-- Row shape of the `GET /api/gps/trucks` SELECT: `id, license_plate,
current_lat AS lat, current_lng AS lng, strftime('%s', last_updated) AS
timestamp`. -/
structure TruckRow where
id : ℤ
license_plate : String
lat : ℝ
lng : ℝ
timestamp : ℤ

/-- Comparison of `ORDER BY last_updated DESC`. -/
def updatedDesc (a b : Truck) : Prop := b.last_updated ≤ a.last_updated

instance : DecidableRel updatedDesc :=
fun a b => inferInstanceAs (Decidable (b.last_updated ≤ a.last_updated))

/-- Result rows of `GET /api/gps/trucks`: the freshness window is the
hard-coded `datetime('now', '-5 minutes')`, i.e. 300 seconds. -/
def truckRows (now : ℤ) (store : List Truck) : List TruckRow :=
((store.filter fun t => now - 5 * 60 < t.last_updated).insertionSort
    updatedDesc).map fun t =>
  ⟨t.id, t.license_plate, t.current_lat, t.current_lng, t.last_updated⟩

set_option linter.unusedVariables false in
/-- The handler of `GET /api/gps/trucks` (spec:
`listRecentVehiclePositions`).  It receives the request but reads nothing
from it: `windowMinutes` is accepted here exactly as a query parameter the
Express handler would see, and is ignored. -/
def listRecentVehiclePositions (windowMinutes : Option ℤ) (now : ℤ)
    (db : Except String (List Truck)) : Response (List TruckRow) :=
match db with
| .error e => .error e
| .ok store => .json (truckRows now store)

/-- Calendar timestamp used by the date functions, field for field as in
the ISO-8601 text `YYYY-MM-DD HH:MM:SS`. -/
structure Date where
year : ℤ
month : ℤ
day : ℤ
hour : ℤ
minute : ℤ
second : ℤ

/-- Gregorian leap year. -/
def isLeap (y : ℤ) : Bool :=
(y % 4 = 0 && y % 100 ≠ 0) || y % 400 = 0

/-- Length of a month. -/
def daysInMonth (y m : ℤ) : ℤ :=
if m = 2 then (if isLeap y then 29 else 28)
else if m = 4 ∨ m = 6 ∨ m = 9 ∨ m = 11 then 30
else 31

/-- SQLite `-1 month` / `-1 year`: shift the year-month by `k` months
keeping the day number, then normalise a day overflow forward into the
next month (e.g. `2026-03-31, -1 month ↦ 2026-02-31 ↦ 2026-03-03`). -/
def subMonths (dt : Date) (k : ℤ) : Date :=
let ym := dt.year * 12 + (dt.month - 1) - k
let y := ym / 12
let m := ym % 12 + 1
if daysInMonth y m < dt.day then
  let d := dt.day - daysInMonth y m
  let y2 := if m = 12 then y + 1 else y
  let m2 := if m = 12 then 1 else m + 1
  ⟨y2, m2, d, dt.hour, dt.minute, dt.second⟩
else ⟨y, m, dt.day, dt.hour, dt.minute, dt.second⟩

/-- SQLite `-1 day`. -/
def subOneDay (dt : Date) : Date :=
if 1 < dt.day then ⟨dt.year, dt.month, dt.day - 1, dt.hour, dt.minute, dt.second⟩
else if dt.month = 1 then ⟨dt.year - 1, 12, 31, dt.hour, dt.minute, dt.second⟩
else ⟨dt.year, dt.month - 1, daysInMonth dt.year (dt.month - 1), dt.hour,
      dt.minute, dt.second⟩

/-- Zero-padded two-digit field. -/
def pad2 (n : ℤ) : String :=
if n < 10 then "0" ++ toString n else toString n

/-- Four-digit year. -/
def pad4 (n : ℤ) : String :=
if n < 10 then "000" ++ toString n
else if n < 100 then "00" ++ toString n
else if n < 1000 then "0" ++ toString n
else toString n

/-- ISO-8601 rendering `YYYY-MM-DD HH:MM:SS`, the text `datetime` returns. -/
def fmtDate (dt : Date) : String :=
pad4 dt.year ++ "-" ++ pad2 dt.month ++ "-" ++ pad2 dt.day ++ " " ++
  pad2 dt.hour ++ ":" ++ pad2 dt.minute ++ ":" ++ pad2 dt.second

/-- SQLite `datetime('now', m)` for the modifiers this endpoint can build:
`'-1 ' || period`.  The interval units SQLite knows are second(s),
minute(s), hour(s), day(s), month(s) and year(s) -- `week` is NOT among
them -- and any unrecognised modifier makes the whole expression NULL.
The sub-day units are omitted here (no analysed claim reaches them); every
other reachable modifier is modelled. -/
def datetimeMod (now : Date) : String → SVal
| "-1 day" => .text (fmtDate (subOneDay now))
| "-1 days" => .text (fmtDate (subOneDay now))
| "-1 month" => .text (fmtDate (subMonths now 1))
| "-1 months" => .text (fmtDate (subMonths now 1))
| "-1 year" => .text (fmtDate (subMonths now 12))
| "-1 years" => .text (fmtDate (subMonths now 12))
| _ => .null

/-- Row of the `shipments` table (never created by the bootstrap; spec §3
documents it as the append-only shipment history with a completion
timestamp, stored here as ISO-8601 text). -/
structure Shipment where
id : ℤ
timestamp : String
revenue : ℝ

/-- Output row of `GET /api/analytics/revenue`. -/
structure RevRow where
timeframe : String
total : ℝ
shipments : ℕ

/-- `strftime('%Y-%m', timestamp)` on the well-formed ISO-8601 texts of
this table: the first seven characters. -/
def yearMonth (ts : String) : String := ts.take 7

/-- Result rows of `GET /api/analytics/revenue` for period string `p`:
`WHERE timestamp > datetime('now', '-1 ' || p)` then `GROUP BY
strftime('%Y-%m', timestamp)` with `SUM(revenue)` and `COUNT(*)`,
`ORDER BY timeframe` ascending. -/
noncomputable def revenueRows (p : String) (now : Date) (store : List Shipment) :
    List RevRow :=
let cutoff := datetimeMod now ("-1 " ++ p)
let window := store.filter fun s => (svalLt cutoff (.text s.timestamp)).getD false
let labels := ((window.map fun s => yearMonth s.timestamp).dedup).insertionSort (· ≤ ·)
labels.map fun tf =>
  let grp := window.filter fun s => yearMonth s.timestamp = tf
  ⟨tf, (grp.map Shipment.revenue).sum, grp.length⟩

/-- The handler of `GET /api/analytics/revenue` (spec: `revenueByPeriod`):
`const { period = 'month' } = req.query`, then the query with the
parameter `'-1 ' + period` bound into `datetime('now', ?)`.  No value of
`period` is rejected. -/
noncomputable def revenueByPeriod (period : Option String) (now : Date)
    (db : Except String (List Shipment)) : Response (List RevRow) :=
match db with
| .error e => .error e
| .ok store => .json (revenueRows (period.getD "month") now store)

/-- Modelled from the spec (§4.2, §9): the distance computation the spec
prescribes clamps the inverse-cosine argument into `[-1, 1]` before
`arccos`; this is the clamped step, for comparison with `svalAcos`. -/
noncomputable def clampedAcos (x : ℝ) : ℝ :=
Real.arccos (max (-1) (min 1 x))

/-- Degrees to radians, the glue `radians` applies to every coordinate. -/
noncomputable def rad (x : ℝ) : ℝ := x * Real.pi / 180

/-- The inverse-cosine argument of the distance expression, over the
reals: `cos(rad lat) * cos(rad olat) * cos(rad olng - rad lng) +
sin(rad lat) * sin(rad olat)`. -/
noncomputable def gcArg (lat lng olat olng : ℝ) : ℝ :=
Real.cos (rad lat) * Real.cos (rad olat) * Real.cos (rad olng - rad lng) +
  Real.sin (rad lat) * Real.sin (rad olat)

/-- A coordinate parameter the distance expression cannot use: absent
(binds NULL) or a string SQLite does not read as a number. -/
def nonNumeric : Option String → Prop
| none => True
| some s => parseNum s = none

/-- Distance is a defined (non-NULL) number for this row and request. -/
noncomputable def distDefined (q : OppQuery) (o : Opportunity) : Bool :=
match distSV q o with
| .real _ => true
| _ => false

/-- The expiry half of the WHERE clause on its own. -/
noncomputable def expiryPass (now : String) (o : Opportunity) : Bool :=
(svalLt (.text now) (.text o.expiry)).getD false

/-- Fixture: an unexpired opportunity whose pickup point is the equator /
prime-meridian origin. -/
def nearOpp : Opportunity :=
⟨2, "C", "D", "pC", 500, "2099-01-01 00:00:00", 0, 0⟩

/-- Fixture: an unexpired opportunity on the equator at longitude 90°E,
a quarter of the great circle (about 10008 km) from `nearOpp`'s point. -/
def farOpp : Opportunity :=
⟨1, "A", "B", "pA", 500, "2099-01-01 00:00:00", 0, 90⟩

/-- Fixture: the `datetime('now')` text of the requests below. -/
def nowT : String := "2026-10-12 00:00:00"

/-- Fixture: a valid request whose caller-supplied `max_distance` is 1 km. -/
def reqMax1 : OppQuery := ⟨some "0", some "0", some "1"⟩

/-- Fixture: a valid request with a generous caller-supplied maximum. -/
def reqWide : OppQuery := ⟨some "0", some "0", some "20000"⟩

/-- Fixture: a valid request with non-positive `max_distance = -5`. -/
def reqNeg : OppQuery := ⟨some "0", some "0", some "-5"⟩

/-- Fixture: a valid request that leaves `max_distance` to its default. -/
def reqDefault : OppQuery := ⟨some "0", some "0", none⟩

/-- Fixture: a request with `lat` missing from the query string. -/
def reqNoLat : OppQuery := ⟨none, some "0", none⟩

/-- Fixture: a request whose `lat` is not numeric. -/
def reqBadLat : OppQuery := ⟨some "abc", some "0", none⟩

/-- Fixture: a vehicle position reported 4 minutes before `now = 100000`. -/
def truck4min : Truck := ⟨1, "PL-1", 0, 0, 99760⟩

/-- Fixture: a shipment completed the day before the `now` below. -/
def shipYesterday : Shipment := ⟨1, "2026-10-11 12:00:00", 100⟩

/-- Fixture: `now` for the revenue queries. -/
def nowD : Date := ⟨2026, 10, 12, 0, 0, 0⟩

lemma svalToNum_real (x : ℝ) : svalToNum (.real x) = some x := rfl

lemma svalToNum_null : svalToNum .null = none := rfl

lemma svalArithNum_real (x : ℝ) : svalArithNum (.real x) = some x := rfl

lemma svalArithNum_null : svalArithNum .null = none := rfl

lemma svalRadians_real (x : ℝ) : svalRadians (.real x) = .real (rad x) := rfl

lemma svalCos_real (x : ℝ) : svalCos (.real x) = .real (Real.cos x) := rfl

lemma svalSin_real (x : ℝ) : svalSin (.real x) = .real (Real.sin x) := rfl

lemma svalMul_real (x y : ℝ) : svalMul (.real x) (.real y) = .real (x * y) := rfl

lemma svalAdd_real (x y : ℝ) : svalAdd (.real x) (.real y) = .real (x + y) := rfl

lemma svalSub_real (x y : ℝ) : svalSub (.real x) (.real y) = .real (x - y) := rfl

lemma svalRadians_null : svalRadians .null = .null := rfl

lemma svalCos_null : svalCos .null = .null := rfl

lemma svalAcos_null : svalAcos .null = .null := rfl

lemma svalMul_null_left (b : SVal) : svalMul .null b = .null := rfl

lemma svalMul_null_right (a : SVal) : svalMul a .null = .null := by
  unfold svalMul svalArithNum
  cases a <;> rfl

lemma svalAdd_null_left (b : SVal) : svalAdd .null b = .null := rfl

lemma svalSub_null_right (a : SVal) : svalSub a .null = .null := by
  unfold svalSub svalArithNum
  cases a <;> rfl

lemma svalLt_null_left (b : SVal) : svalLt .null b = none := by
  cases b <;> rfl

lemma svalAcos_real_of_mem {x : ℝ} (h1 : -1 ≤ x) (h2 : x ≤ 1) :
    svalAcos (.real x) = .real (Real.arccos x) := by
  show (if -1 ≤ x ∧ x ≤ 1 then SVal.real (Real.arccos x) else SVal.null) = _
  exact if_pos ⟨h1, h2⟩

lemma svalRadians_of_toNum_none {v : SVal} (h : svalToNum v = none) :
    svalRadians v = .null := by
  unfold svalRadians
  rw [h]

/-- In real arithmetic the inverse-cosine argument stays inside
`[-1, 1]`: the out-of-domain case of `acos` is reachable only through
floating-point rounding. -/
lemma gcArg_mem_Icc (lat lng olat olng : ℝ) :
    -1 ≤ gcArg lat lng olat olng ∧ gcArg lat lng olat olng ≤ 1 := by
  unfold gcArg
  set cx := Real.cos (rad lat) with hcx
  set sx := Real.sin (rad lat) with hsx
  set cy := Real.cos (rad olat) with hcy
  set sy := Real.sin (rad olat) with hsy
  set t := Real.cos (rad olng - rad lng) with ht
  have hx : sx ^ 2 + cx ^ 2 = 1 := Real.sin_sq_add_cos_sq (rad lat)
  have hy : sy ^ 2 + cy ^ 2 = 1 := Real.sin_sq_add_cos_sq (rad olat)
  have ht1 : t ≤ 1 := Real.cos_le_one _
  have ht2 : -1 ≤ t := Real.neg_one_le_cos _
  have hA : cx * cy + sx * sy ≤ 1 := by nlinarith [sq_nonneg (cx - cy), sq_nonneg (sx - sy)]
  have hB : sx * sy - cx * cy ≤ 1 := by nlinarith [sq_nonneg (cx + cy), sq_nonneg (sx - sy)]
  have hC : -1 ≤ cx * cy + sx * sy := by nlinarith [sq_nonneg (cx + cy), sq_nonneg (sx + sy)]
  have hD : -1 ≤ sx * sy - cx * cy := by nlinarith [sq_nonneg (cx - cy), sq_nonneg (sx + sy)]
  constructor
  · nlinarith [mul_nonneg (by linarith : (0:ℝ) ≤ 1 - t) (by linarith : (0:ℝ) ≤ 1 + (sx * sy - cx * cy)),
      mul_nonneg (by linarith : (0:ℝ) ≤ 1 + t) (by linarith : (0:ℝ) ≤ 1 + (cx * cy + sx * sy))]
  · nlinarith [mul_nonneg (by linarith : (0:ℝ) ≤ 1 - t) (by linarith : (0:ℝ) ≤ 1 - (sx * sy - cx * cy)),
      mul_nonneg (by linarith : (0:ℝ) ≤ 1 + t) (by linarith : (0:ℝ) ≤ 1 - (cx * cy + sx * sy))]

/-- On numeric inputs the SELECT's distance expression is the exact
great-circle formula (no NULL appears, because in real arithmetic the
`acos` argument is always in domain). -/
lemma distExpr_real_eq (a b olat olng : ℝ) :
    distExpr (.real a) (.real b) olat olng =
      .real (6371 * Real.arccos (gcArg a b olat olng)) := by
  obtain ⟨h1, h2⟩ := gcArg_mem_Icc a b olat olng
  unfold distExpr
  simp only [svalRadians_real, svalCos_real, svalSin_real, svalSub_real,
    svalMul_real, svalAdd_real]
  show svalMul (.real 6371) (svalAcos (.real (gcArg a b olat olng))) = _
  rw [svalAcos_real_of_mem h1 h2]
  exact svalMul_real 6371 _

/-- A TEXT-bound coordinate that parses as a number behaves like the
numeric value. -/
lemma distExpr_text_eq {s t : String} {x y : ℝ}
    (hs : svalToNum (.text s) = some x) (ht : svalToNum (.text t) = some y)
    (olat olng : ℝ) :
    distExpr (.text s) (.text t) olat olng = distExpr (.real x) (.real y) olat olng := by
  unfold distExpr svalRadians
  rw [hs, ht]
  rfl

lemma rad_zero : rad 0 = 0 := by simp [rad]

lemma rad_ninety : rad 90 = Real.pi / 2 := by rw [rad]; ring

/-- Identical query and pickup points give argument exactly 1. -/
lemma gcArg_self (a b : ℝ) : gcArg a b a b = 1 := by
  unfold gcArg
  rw [sub_self, Real.cos_zero, mul_one]
  linear_combination Real.sin_sq_add_cos_sq (rad a)

/-- Equator origin against the equator point at 90°E gives argument 0. -/
lemma gcArg_equator : gcArg 0 0 0 90 = 0 := by
  unfold gcArg
  rw [rad_zero, rad_ninety]
  simp [Real.cos_pi_div_two]

/-- The argument is symmetric in the two points. -/
lemma gcArg_comm (a b c d : ℝ) : gcArg a b c d = gcArg c d a b := by
  unfold gcArg
  rw [show rad b - rad d = -(rad d - rad b) by ring, Real.cos_neg]
  ring

lemma svalSin_null : svalSin .null = .null := rfl

/-- NULL in the latitude hole wipes out the whole distance expression. -/
lemma distExpr_null_lat {lat : SVal} (h : svalToNum lat = none) (lng : SVal)
    (olat olng : ℝ) : distExpr lat lng olat olng = .null := by
  unfold distExpr
  rw [svalRadians_of_toNum_none h, svalCos_null, svalMul_null_left,
    svalMul_null_left, svalAdd_null_left, svalAcos_null, svalMul_null_right]

/-- NULL in the longitude hole wipes out the whole distance expression. -/
lemma distExpr_null_lng {lng : SVal} (h : svalToNum lng = none) (lat : SVal)
    (olat olng : ℝ) : distExpr lat lng olat olng = .null := by
  unfold distExpr
  rw [svalRadians_of_toNum_none h, svalSub_null_right, svalCos_null,
    svalMul_null_right, svalAdd_null_left, svalAcos_null, svalMul_null_right]

lemma bindParam_toNum_none {p : Option String} (h : nonNumeric p) :
    svalToNum (bindParam p) = none := by
  cases p with
  | none => rfl
  | some s =>
    show ((parseNum s).map fun q => ((q : ℝ))) = none
    rw [show parseNum s = none from h]
    rfl

/-- A missing or non-numeric coordinate parameter makes every row's
distance NULL. -/
lemma distSV_null_of_bad {q : OppQuery} (o : Opportunity)
    (h : nonNumeric q.lat ∨ nonNumeric q.lng) : distSV q o = .null := by
  unfold distSV
  rcases h with h | h
  · exact distExpr_null_lat (bindParam_toNum_none h) _ _ _
  · exact distExpr_null_lng (bindParam_toNum_none h) _ _ _

lemma wherePass_false_of_dist_null {q : OppQuery} {now : String}
    {o : Opportunity} (h : distSV q o = .null) : wherePass q now o = false := by
  unfold wherePass
  rw [h, svalLt_null_left]
  rfl

/-- A request whose coordinates cannot be used returns no rows at all. -/
lemma oppRows_nil_of_bad (q : OppQuery) (now : String) (store : List Opportunity)
    (h : nonNumeric q.lat ∨ nonNumeric q.lng) : oppRows q now store = [] := by
  have hf : eligible q now store = [] := by
    unfold eligible
    rw [List.filter_eq_nil_iff]
    intro o _
    rw [wherePass_false_of_dist_null (distSV_null_of_bad o h)]
    simp
  unfold oppRows ranked
  rw [hf]
  rfl

lemma parseNum_zeroS : parseNum "0" = some 0 := by
  unfold parseNum numScan
  simp +decide [signSplit, expScan, digitsToNat, isWs]

lemma svalToNum_text_zero : svalToNum (.text "0") = some 0 := by
  show ((parseNum "0").map fun q => ((q : ℝ))) = some 0
  rw [parseNum_zeroS]
  simp

/-- With both coordinates supplied as the text `"0"`, every row's distance
is the exact great-circle distance from the origin. -/
lemma distSV_q_zero {q : OppQuery} (hq1 : q.lat = some "0") (hq2 : q.lng = some "0")
    (o : Opportunity) :
    distSV q o = .real (6371 * Real.arccos (gcArg 0 0 o.origin_lat o.origin_lng)) := by
  unfold distSV
  rw [hq1, hq2]
  show distExpr (.text "0") (.text "0") o.origin_lat o.origin_lng = _
  rw [distExpr_text_eq svalToNum_text_zero svalToNum_text_zero, distExpr_real_eq]

/-- Distance to `nearOpp` from the origin request: exactly 0 km. -/
lemma distSV_near {q : OppQuery} (hq1 : q.lat = some "0") (hq2 : q.lng = some "0") :
    distSV q nearOpp = .real 0 := by
  rw [distSV_q_zero hq1 hq2]
  norm_num [nearOpp, gcArg_self, Real.arccos_one]

/-- Distance to `farOpp` from the origin request: a quarter great circle. -/
lemma distSV_far {q : OppQuery} (hq1 : q.lat = some "0") (hq2 : q.lng = some "0") :
    distSV q farOpp = .real (6371 * (Real.pi / 2)) := by
  rw [distSV_q_zero hq1 hq2]
  show SVal.real (6371 * Real.arccos (gcArg 0 0 0 90)) = _
  rw [gcArg_equator, Real.arccos_zero]

lemma svalLt_real_text (x : ℝ) (s : String) : svalLt (.real x) (.text s) = some true := rfl

lemma expiry_fix : decide ((nowT : String) < "2099-01-01 00:00:00") = true :=
  decide_eq_true (by rw [String.lt_iff_toList_lt]; decide)

/-- Any row whose distance is numeric passes a caller-supplied (TEXT)
`max_distance`, whatever both values are. -/
lemma wherePass_of_text_max {q : OppQuery} {now : String} {o : Opportunity}
    {m : String} (hm : q.max_distance = some m) {d : ℝ}
    (hd : distSV q o = .real d) (he : decide (now < o.expiry) = true) :
    wherePass q now o = true := by
  unfold wherePass
  rw [hd, hm]
  show (true && decide (now < o.expiry)) = true
  rw [he]
  rfl

/-- A numeric `max_distance` bound (the defaulted 100) admits exactly the
rows with smaller numeric distance. -/
lemma wherePass_of_real_max {q : OppQuery} {now : String} {o : Opportunity}
    (hm : q.max_distance = none) {d : ℝ} (hd : distSV q o = .real d)
    (hlt : d < 100) (he : decide (now < o.expiry) = true) :
    wherePass q now o = true := by
  unfold wherePass
  rw [hd, hm]
  show (decide (d < 100) && decide (now < o.expiry)) = true
  rw [he, decide_eq_true hlt]
  rfl

lemma eligible_single {q : OppQuery} {now : String} {o : Opportunity}
    (h : wherePass q now o = true) : eligible q now [o] = [o] := by
  simp [eligible, h]

lemma eligible_pair {q : OppQuery} {now : String} {o1 o2 : Opportunity}
    (h1 : wherePass q now o1 = true) (h2 : wherePass q now o2 = true) :
    eligible q now [o1, o2] = [o1, o2] := by
  simp [eligible, h1, h2]

lemma ranked_single (o : Opportunity) : ranked [o] = [o] := rfl

lemma ranked_pair {o1 o2 : Opportunity} (h : revDesc o1 o2) :
    ranked [o1, o2] = [o1, o2] := by
  unfold ranked
  show List.orderedInsert revDesc o1 (List.insertionSort revDesc [o2]) = _
  show List.orderedInsert revDesc o1 [o2] = _
  unfold List.orderedInsert
  rw [if_pos h]

lemma oppRows_single {q : OppQuery} {now : String} {o : Opportunity}
    (h : wherePass q now o = true) : oppRows q now [o] = [toResult q o] := by
  unfold oppRows
  rw [eligible_single h, ranked_single]
  rfl

lemma oppRows_pair {q : OppQuery} {now : String} {o1 o2 : Opportunity}
    (h1 : wherePass q now o1 = true) (h2 : wherePass q now o2 = true)
    (hr : revDesc o1 o2) :
    oppRows q now [o1, o2] = [toResult q o1, toResult q o2] := by
  unfold oppRows
  rw [eligible_pair h1 h2, ranked_pair hr]
  rfl

/-- A product of SQLite values is numeric or NULL, never TEXT. -/
lemma svalMul_shape (a b : SVal) : (∃ x, svalMul a b = .real x) ∨ svalMul a b = .null := by
  unfold svalMul
  cases ha : svalArithNum a with
  | none => right; rfl
  | some x =>
    cases hb : svalArithNum b with
    | none => right; rfl
    | some y => left; exact ⟨x * y, rfl⟩

/-- The computed distance is numeric or NULL, never TEXT. -/
lemma distSV_shape (q : OppQuery) (o : Opportunity) :
    (∃ x, distSV q o = .real x) ∨ distSV q o = .null := by
  unfold distSV distExpr
  exact svalMul_shape _ _

lemma wherePass_elim {q : OppQuery} {now : String} {o : Opportunity}
    (h : wherePass q now o = true) :
    (svalLt (distSV q o) (bindMax q.max_distance)).getD false = true ∧
      now < o.expiry := by
  unfold wherePass at h
  rw [Bool.and_eq_true] at h
  obtain ⟨h1, h2⟩ := h
  exact ⟨h1, of_decide_eq_true h2⟩

/-- Under the defaulted (numeric) maximum, a surviving row really is
within 100 km. -/
lemma dist_lt_of_default {q : OppQuery} {now : String} {o : Opportunity}
    (hm : q.max_distance = none) (h : wherePass q now o = true) :
    ∃ d, distSV q o = .real d ∧ d < 100 := by
  obtain ⟨h1, _⟩ := wherePass_elim h
  rw [hm] at h1
  rcases distSV_shape q o with ⟨d, hd⟩ | hd
  · rw [hd] at h1
    exact ⟨d, hd, of_decide_eq_true h1⟩
  · rw [hd, svalLt_null_left] at h1
    exact absurd h1 (by simp)

/-- Rows of the result always come from stored rows that passed WHERE. -/
lemma oppRows_mem {q : OppQuery} {now : String} {store : List Opportunity}
    {r : OppResult} (hr : r ∈ oppRows q now store) :
    ∃ o, o ∈ store ∧ r = toResult q o ∧ wherePass q now o = true := by
  unfold oppRows at hr
  rcases List.mem_map.1 hr with ⟨o, ho, rfl⟩
  have h1 : o ∈ ranked (eligible q now store) := List.mem_of_mem_take ho
  unfold ranked at h1
  have h2 : o ∈ eligible q now store :=
    ((List.perm_insertionSort revDesc _).mem_iff).1 h1
  rcases List.mem_filter.1 h2 with ⟨hs, hp⟩
  exact ⟨o, hs, rfl, hp⟩

instance : IsTotal Opportunity revDesc := ⟨fun a b => le_total b.revenue a.revenue⟩

instance : IsTrans Opportunity revDesc := ⟨fun _ _ _ hab hbc => le_trans hbc hab⟩

/-- The result rows are non-increasing in revenue. -/
lemma oppRows_sorted (q : OppQuery) (now : String) (store : List Opportunity) :
    List.Pairwise (fun a b : OppResult => b.revenue ≤ a.revenue)
      (oppRows q now store) := by
  unfold oppRows
  rw [List.pairwise_map]
  have hs : List.Pairwise revDesc (ranked (eligible q now store)) :=
    List.sorted_insertionSort revDesc _
  exact List.Pairwise.sublist (List.take_sublist _ _) hs

instance : IsTotal Truck updatedDesc := ⟨fun a b => le_total b.last_updated a.last_updated⟩

instance : IsTrans Truck updatedDesc := ⟨fun _ _ _ hab hbc => le_trans hbc hab⟩

/-- Every returned vehicle position is within the fixed 5-minute window. -/
lemma truckRows_window {now : ℤ} {store : List Truck} {r : TruckRow}
    (hr : r ∈ truckRows now store) : now - 5 * 60 < r.timestamp := by
  unfold truckRows at hr
  rcases List.mem_map.1 hr with ⟨t, ht, rfl⟩
  have h2 : t ∈ store.filter fun t => now - 5 * 60 < t.last_updated :=
    ((List.perm_insertionSort updatedDesc _).mem_iff).1 ht
  rcases List.mem_filter.1 h2 with ⟨_, hp⟩
  exact of_decide_eq_true hp

/-- The returned vehicle positions are non-increasing in `timestamp`. -/
lemma truckRows_sorted (now : ℤ) (store : List Truck) :
    List.Pairwise (fun a b : TruckRow => b.timestamp ≤ a.timestamp)
      (truckRows now store) := by
  unfold truckRows
  rw [List.pairwise_map]
  exact List.sorted_insertionSort updatedDesc _

/-- A NULL window cutoff empties the revenue aggregation entirely. -/
lemma revenueRows_of_cutoff_null {p : String} {now : Date} (store : List Shipment)
    (h : datetimeMod now ("-1 " ++ p) = .null) : revenueRows p now store = [] := by
  simp only [revenueRows, h, svalLt_null_left]
  have hw : store.filter (fun s => (none : Option Bool).getD false) = [] := by
    rw [List.filter_eq_nil_iff]
    intro s _
    simp
  rw [hw]
  rfl

/-- C8: the distance computation of the Proximity Ranker is symmetric --
swapping the query point and the target yields the same value (exactly, in
real arithmetic) -- and evaluates to 0 km whenever the query coordinates
equal the opportunity's origin coordinates. -/
theorem c8_distance_symmetric_and_zero :
    (∀ a b olat olng : ℝ,
      distExpr (.real a) (.real b) olat olng = distExpr (.real olat) (.real olng) a b) ∧
    (∀ a b : ℝ, distExpr (.real a) (.real b) a b = .real 0) := by
  constructor
  · intro a b c d
    rw [distExpr_real_eq, distExpr_real_eq, gcArg_comm]
  · intro a b
    rw [distExpr_real_eq, gcArg_self, Real.arccos_one, mul_zero]

/-- C3: the code's inverse-cosine step is NOT clamped: for any argument
that drifts above 1 (which floating-point rounding produces for
near-identical points, e.g. lat 0.0074) SQLite's `acos` yields NULL and
the row is dropped, whereas the spec's clamped arccos yields a defined
distance of 0.  In exact real arithmetic the argument never leaves
`[-1, 1]` (`gcArg_mem_Icc`), so the omission is precisely the
floating-point guard the spec mandates. -/
theorem c3_unclamped_acos (x : ℝ) (hx : 1 < x) :
    svalAcos (.real x) = .null ∧ clampedAcos x = 0 := by
  constructor
  · show (if -1 ≤ x ∧ x ≤ 1 then SVal.real (Real.arccos x) else SVal.null) = SVal.null
    rw [if_neg]
    intro h
    exact absurd h.2 (not_le.2 hx)
  · unfold clampedAcos
    rw [min_eq_left hx.le, max_eq_right (by norm_num : (-1:ℝ) ≤ 1), Real.arccos_one]

/-- C3 witness: at argument 2 the code's `acos` is NULL while the clamped
arccos is 0. -/
theorem c3_witness : (1:ℝ) < 2 ∧ svalAcos (.real 2) = .null ∧ clampedAcos 2 = 0 :=
  ⟨by norm_num, c3_unclamped_acos 2 (by norm_num)⟩

/-- C9: a request whose `lat` or `lng` is missing or non-numeric succeeds
and returns the empty sequence -- the computed distance is NULL for every
row, so no row passes the filter -- and no error is reported. -/
theorem c9_bad_coords_empty_success (q : OppQuery) (now : String)
    (store : List Opportunity) (h : nonNumeric q.lat ∨ nonNumeric q.lng) :
    findOpportunities q now (.ok store) = .json [] := by
  show Response.json (oppRows q now store) = _
  rw [oppRows_nil_of_bad q now store h]

/-- C9 witness: the non-numeric latitude "abc" yields a successful empty
response over a store holding an unexpired nearby opportunity. -/
theorem c9_witness :
    nonNumeric reqBadLat.lat ∧
      findOpportunities reqBadLat nowT (.ok [nearOpp]) = .json [] := by
  have hb : nonNumeric reqBadLat.lat := by
    show parseNum "abc" = none
    decide
  exact ⟨hb, c9_bad_coords_empty_success reqBadLat nowT [nearOpp] (Or.inl hb)⟩

/-- C4 counterexample: with `lat` missing the operation does not fail with
InvalidArgument -- it succeeds and returns a (empty) result. -/
theorem c4_counterexample :
    findOpportunities reqNoLat nowT (.ok [nearOpp]) = .json [] := by
  show Response.json (oppRows reqNoLat nowT [nearOpp]) = _
  rw [oppRows_nil_of_bad reqNoLat nowT [nearOpp] (Or.inl trivial)]

/-- C4 amended: a request missing `lat` or `lng` is not rejected as
InvalidArgument; it succeeds with the empty sequence (the NULL coordinate
nulls every computed distance). -/
theorem c4_amended (q : OppQuery) (now : String) (store : List Opportunity)
    (h : q.lat = none ∨ q.lng = none) :
    findOpportunities q now (.ok store) = .json [] := by
  have hb : nonNumeric q.lat ∨ nonNumeric q.lng := by
    rcases h with h | h
    · left; rw [h]; trivial
    · right; rw [h]; trivial
  show Response.json (oppRows q now store) = _
  rw [oppRows_nil_of_bad q now store hb]

/-- C4 witness: the amended behaviour at a concrete request with `lat`
absent. -/
theorem c4_witness :
    (reqNoLat.lat = none ∨ reqNoLat.lng = none) ∧
      findOpportunities reqNoLat nowT (.ok [nearOpp]) = .json [] :=
  ⟨Or.inl rfl, c4_amended reqNoLat nowT [nearOpp] (Or.inl rfl)⟩

/-- C10 counterexample: `max_distance = -5` (non-positive) does NOT yield
the empty sequence: the caller-supplied maximum binds as TEXT, every
numeric value orders before TEXT in SQLite, so `distance < '-5'` is true
and the unexpired opportunity is returned. -/
theorem c10_counterexample :
    oppRows reqNeg nowT [nearOpp] = [toResult reqNeg nearOpp] ∧
      oppRows reqNeg nowT [nearOpp] ≠ [] := by
  have hp : wherePass reqNeg nowT nearOpp = true :=
    wherePass_of_text_max rfl (distSV_near rfl rfl) expiry_fix
  have he := oppRows_single hp
  refine ⟨he, ?_⟩
  rw [he]
  simp

/-- C10 amended: any caller-supplied `max_distance` (in particular every
value ≤ 0) binds as TEXT and never constrains the distance: eligibility
degenerates to having a defined (non-NULL) distance and being unexpired,
so the result is the revenue-ranked unexpired opportunities (capped at
50), not the empty sequence, and no error is reported. -/
theorem c10_amended (q : OppQuery) (now : String) (store : List Opportunity)
    (m : String) (hm : q.max_distance = some m) :
    eligible q now store =
      store.filter (fun o => distDefined q o && expiryPass now o) := by
  unfold eligible
  apply List.filter_congr
  intro o _
  unfold wherePass distDefined expiryPass
  rw [hm]
  rcases distSV_shape q o with ⟨d, hd⟩ | hd
  · rw [hd]
    rfl
  · rw [hd, svalLt_null_left]
    rfl

/-- C10 witness: the amended eligibility at the concrete request. -/
theorem c10_witness :
    reqNeg.max_distance = some "-5" ∧
      eligible reqNeg nowT [] =
        List.filter (fun o => distDefined reqNeg o && expiryPass nowT o) [] :=
  ⟨rfl, c10_amended reqNeg nowT [] "-5" rfl⟩

/-- C1 counterexample: with caller maximum 1 km, the opportunity a quarter
great circle away (6371·π/2 km) is still returned, so the returned pair
violates `distance < maxDistanceKm`. -/
theorem c1_counterexample :
    oppRows reqMax1 nowT [farOpp] = [toResult reqMax1 farOpp] ∧
      (toResult reqMax1 farOpp).distance = .real (6371 * (Real.pi / 2)) ∧
      ¬ (6371 * (Real.pi / 2) < (1 : ℝ)) := by
  have hp : wherePass reqMax1 nowT farOpp = true :=
    wherePass_of_text_max rfl (distSV_far rfl rfl) expiry_fix
  refine ⟨oppRows_single hp, distSV_far rfl rfl, ?_⟩
  intro hlt
  nlinarith [Real.pi_gt_three]

/-- C1 amended: every returned pair is unexpired, at most 50 rows are
returned, and the output is a prefix of the full ranked eligible list (the
cap is applied after ranking); the bound `distance < maxDistanceKm` holds
when `max_distance` is left to its numeric default of 100, but not in
general for a caller-supplied (TEXT-bound) maximum. -/
theorem c1_amended (q : OppQuery) (now : String) (store : List Opportunity)
    (r : OppResult) (hr : r ∈ oppRows q now store) :
    (oppRows q now store).length ≤ 50 ∧
    (∃ rest, (ranked (eligible q now store)).map (fun o => toResult q o) =
        oppRows q now store ++ rest) ∧
    (∃ o, o ∈ store ∧ r = toResult q o ∧ now < o.expiry ∧
      (q.max_distance = none → ∃ d, distSV q o = .real d ∧ d < 100)) := by
  refine ⟨?_, ?_, ?_⟩
  · unfold oppRows
    rw [List.length_map, List.length_take]
    exact min_le_left _ _
  · refine ⟨((ranked (eligible q now store)).drop 50).map (fun o => toResult q o), ?_⟩
    unfold oppRows
    rw [← List.map_append, List.take_append_drop]
  · rcases oppRows_mem hr with ⟨o, hs, hre, hp⟩
    exact ⟨o, hs, hre, (wherePass_elim hp).2, fun hm => dist_lt_of_default hm hp⟩

/-- C1 witness: the amended contract applied at a default-max request over
a store with one nearby unexpired opportunity. -/
theorem c1_witness :
    (toResult reqDefault nearOpp ∈ oppRows reqDefault nowT [nearOpp]) ∧
      (oppRows reqDefault nowT [nearOpp]).length ≤ 50 := by
  have hp : wherePass reqDefault nowT nearOpp = true :=
    wherePass_of_real_max rfl (distSV_near rfl rfl) (by norm_num) expiry_fix
  have hm : toResult reqDefault nearOpp ∈ oppRows reqDefault nowT [nearOpp] := by
    rw [oppRows_single hp]
    exact List.mem_singleton_self _
  exact ⟨hm, (c1_amended reqDefault nowT [nearOpp] _ hm).1⟩

/-- C2 counterexample: two opportunities with equal revenue come back in
table-scan order -- the first returned row is strictly farther than the
second -- violating the claimed ascending-distance tie-break. -/
theorem c2_counterexample :
    oppRows reqWide nowT [farOpp, nearOpp] =
      [toResult reqWide farOpp, toResult reqWide nearOpp] ∧
    (toResult reqWide farOpp).revenue = (toResult reqWide nearOpp).revenue ∧
    (toResult reqWide farOpp).distance = .real (6371 * (Real.pi / 2)) ∧
    (toResult reqWide nearOpp).distance = .real 0 ∧
    (0 : ℝ) < 6371 * (Real.pi / 2) := by
  have h1 : wherePass reqWide nowT farOpp = true :=
    wherePass_of_text_max rfl (distSV_far rfl rfl) expiry_fix
  have h2 : wherePass reqWide nowT nearOpp = true :=
    wherePass_of_text_max rfl (distSV_near rfl rfl) expiry_fix
  have hd : revDesc farOpp nearOpp := le_refl (500 : ℝ)
  refine ⟨oppRows_pair h1 h2 hd, rfl, distSV_far rfl rfl, distSV_near rfl rfl, ?_⟩
  nlinarith [Real.pi_gt_three]

/-- C2 amended: the output is sorted non-increasing by revenue only; rows
with equal revenue are returned in table-scan order, not by the claimed
distance and id tie-breakers. -/
theorem c2_amended (q : OppQuery) (now : String) (store : List Opportunity) :
    List.Pairwise (fun a b : OppResult => b.revenue ≤ a.revenue)
      (oppRows q now store) :=
  oppRows_sorted q now store

/-- C6 counterexample: there is no `windowMinutes` parameter -- requesting
`windowMinutes = 2` still returns a position 4 minutes old, violating the
claimed bound `lastUpdated > now - windowMinutes`. -/
theorem c6_counterexample :
    listRecentVehiclePositions (some 2) 100000 (.ok [truck4min]) =
      .json [⟨1, "PL-1", 0, 0, 99760⟩] ∧
    ¬ ((100000 : ℤ) - 2 * 60 < 99760) := by
  exact ⟨rfl, by decide⟩

/-- C6 amended: the freshness window is fixed at 5 minutes (300 s) and the
request parameter is ignored; every returned position satisfies
`lastUpdated > now - 5 min` and the sequence is sorted non-increasing by
`lastUpdated`. -/
theorem c6_amended (w w' : Option ℤ) (now : ℤ) (db : Except String (List Truck))
    (store : List Truck) :
    listRecentVehiclePositions w now db = listRecentVehiclePositions w' now db ∧
    (∀ r ∈ truckRows now store, now - 5 * 60 < r.timestamp) ∧
    List.Pairwise (fun a b : TruckRow => b.timestamp ≤ a.timestamp)
      (truckRows now store) :=
  ⟨rfl, fun _ hr => truckRows_window hr, truckRows_sorted now store⟩

/-- C5: the unrecognized period value "banana" is not rejected before the
store is touched: the handler interpolates it into the modifier, runs the
query, the cutoff `datetime('now', '-1 banana')` is NULL, and an empty
result is returned with success -- never InvalidArgument. -/
theorem c5_unrecognized_period_runs (now : Date) (store : List Shipment) :
    revenueByPeriod (some "banana") now (.ok store) = .json [] := by
  show Response.json (revenueRows "banana" now store) = _
  have h : datetimeMod now ("-1 " ++ "banana") = SVal.null := rfl
  rw [revenueRows_of_cutoff_null store h]

/-- C7: for the recognized period `week` the interpolated modifier
`-1 week` is not a valid SQLite date modifier, so the cutoff is NULL and
the result is ALWAYS empty: the returned buckets cannot partition the
trailing-week window (a shipment from yesterday lies in that window but in
no bucket, so the shipment counts cannot add up). -/
theorem c7_week_always_empty (now : Date) (store : List Shipment) :
    revenueByPeriod (some "week") now (.ok store) = .json [] := by
  show Response.json (revenueRows "week" now store) = _
  have h : datetimeMod now ("-1 " ++ "week") = SVal.null := rfl
  rw [revenueRows_of_cutoff_null store h]

end PWL
